import Mathlib

/-!
Formal model of the nestjs-quickstarter repository: the user store, the
decomposed user services (crud, query, password), the auth service
(register, login, refresh, oauth, password change and reset), the global
exception filter and the roles guard, embedded shallowly as pure
functions over an explicit list-of-records store.  Machine-generated ids,
random reset tokens and the current time are passed as explicit
parameters; the argon2 and JWT libraries are modelled by idealized
deterministic functions.
-/

namespace NestQS

/-- User roles, from the UserRole enum of user.schema.ts. -/
inductive UserRole where
  | USER
  | ADMIN
  | MODERATOR
deriving DecidableEq, Repr

/-- Authentication providers, from the AuthProvider enum of user.schema.ts. -/
inductive AuthProvider where
  | LOCAL
  | GOOGLE
  | GITHUB
deriving DecidableEq, Repr

/-- Lowercase rendering of a provider, used by the login error message
(provider.toLowerCase() in auth.service). -/
def AuthProvider.lower : AuthProvider → String
  | .LOCAL => "local"
  | .GOOGLE => "google"
  | .GITHUB => "github"

/-- A persisted user document (user.schema.ts).  Times are milliseconds
since the epoch.  Fields with schema defaults (role USER, provider LOCAL,
isActive true, isEmailVerified false) are total. -/
structure UserRec where
  id : Nat
  email : String
  username : Option String
  passwordHash : Option String
  role : UserRole
  provider : AuthProvider
  providerId : Option String
  isActive : Bool
  isEmailVerified : Bool
  passwordResetToken : Option String
  passwordResetExpires : Option Nat
  lastLogin : Option Nat
  firstName : Option String
  lastName : Option String
  avatar : Option String
deriving DecidableEq, Repr

/-- The users collection, ordered as MongoDB would return documents. -/
abbrev UserStore := List UserRec

/-- Model of the argon2 library hash: deterministic and injective on the
plaintext, so that verification succeeds exactly on the hashed input. -/
def argon2hash (plain : String) : String :=
  String.append "argon2id$" plain

/-- Model of argon2.verify. -/
def argon2verify (hashed plain : String) : Bool :=
  hashed == argon2hash plain

/-- Model of the ASCII part of the JavaScript toLowerCase call used by
UserQueryService.findByEmail. -/
def lowerChar (c : Char) : Char :=
  if 65 ≤ c.toNat ∧ c.toNat ≤ 90 then Char.ofNat (c.toNat + 32) else c

/-- Lowercase an ASCII string, modelling email.toLowerCase(). -/
def lowerString (s : String) : String :=
  ⟨s.data.map lowerChar⟩

/-- Whether a character is removed by the JavaScript trim applied
through the mongoose trim setter, restricted to the ASCII range. -/
def isTrimChar (c : Char) : Bool :=
  c == ' ' || c == '\t' || c == '\n' || c == '\r' || c == '\x0b' || c == '\x0c'

/-- Model of the trim schema setter of user.schema.ts: drop whitespace
from both ends of the string. -/
def trimString (s : String) : String :=
  ⟨List.reverse (List.dropWhile isTrimChar
    (List.reverse (List.dropWhile isTrimChar s.data)))⟩

/-- The stored form of an email under the schema setters of
user.schema.ts (trim true, lowercase true): trimmed and lowercased. -/
def normEmail (s : String) : String :=
  lowerString (trimString s)

/-- Model of Model.findById: the first document with the given id. -/
def findById (store : UserStore) (id : Nat) : Option UserRec :=
  store.find? (fun u => u.id == id)

/-- Model of findByIdAndUpdate with new true: the first document with the
given id is replaced by its image under f; the updated document and the
updated collection are returned. -/
def findByIdAndUpdate (store : UserStore) (id : Nat) (f : UserRec → UserRec) :
    Option UserRec × UserStore :=
  match store with
  | [] => (none, [])
  | u :: rest =>
    if u.id == id then (some (f u), f u :: rest)
    else
      let r := findByIdAndUpdate rest id f
      (r.1, u :: r.2)

/-- Model of findByIdAndDelete: the first document with the given id is
removed; the deleted document and the remaining collection are returned. -/
def deleteById (store : UserStore) (id : Nat) : Option UserRec × UserStore :=
  match store with
  | [] => (none, [])
  | u :: rest =>
    if u.id == id then (some u, rest)
    else
      let r := deleteById rest id
      (r.1, u :: r.2)

/-- The per-document effect of UserRepository.remove: deactivate. -/
def deactivateDoc (u : UserRec) : UserRec :=
  { u with isActive := false }

/-- The per-document effect of UserPasswordService.updateLastLogin. -/
def lastLoginDoc (now : Nat) (u : UserRec) : UserRec :=
  { u with lastLogin := some now }

/-- The per-document effect of UserPasswordService.setPasswordResetToken. -/
def setResetDoc (token : String) (expires : Nat) (u : UserRec) : UserRec :=
  { u with passwordResetToken := some token
           passwordResetExpires := some expires }

/-- The per-document effect of UserPasswordService.clearPasswordResetToken. -/
def clearResetDoc (u : UserRec) : UserRec :=
  { u with passwordResetToken := none
           passwordResetExpires := none }

/-- Application errors thrown by the services, tagged with the HTTP
semantics Nest attaches to the exception class. -/
inductive AppError where
  | unauthorized (msg : String)
  | conflict (msg : String)
  | notFound (msg : String)
  | validation (msg : String)
deriving DecidableEq, Repr

/-- Input of UserCrudService.create; optional fields that a caller can
omit are Option valued. -/
structure CreateUserInput where
  email : String
  username : Option String
  password : Option String
  provider : Option AuthProvider
  providerId : Option String
  role : Option UserRole
  isEmailVerified : Option Bool
  firstName : Option String
  lastName : Option String
  avatar : Option String
deriving Repr

/-- Whether the username of the input collides with a stored document,
the check performed by UserCrudService.create when a username is given;
mongoose applies the trim schema setter to the query filter value. -/
def usernameTaken (store : UserStore) (uname : Option String) : Bool :=
  match uname with
  | some un => (store.find? (fun u => u.username == some (trimString un))).isSome
  | none => false

/-- The document a create call saves, with the schema setters of
user.schema.ts applied on assignment: email trimmed and lowercased,
username and names trimmed, and the schema defaults for the unset
fields.  The database generated id is the explicit newId parameter. -/
def createdDoc (input : CreateUserInput) (newId : Nat) : UserRec :=
  { id := newId
    email := normEmail input.email
    username := input.username.map trimString
    passwordHash := input.password.map argon2hash
    role := input.role.getD UserRole.USER
    provider := input.provider.getD AuthProvider.LOCAL
    providerId := input.providerId
    isActive := true
    isEmailVerified := input.isEmailVerified.getD false
    passwordResetToken := none
    passwordResetExpires := none
    lastLogin := none
    firstName := input.firstName.map trimString
    lastName := input.lastName.map trimString
    avatar := input.avatar }

/-- Model of user.save() under user.schema.ts: the mongoose unique
validator plugin fails the save with a validation error, which is not an
HttpException, when another stored document carries the same email, or
the same username when one is present; otherwise the document is
inserted. -/
def userSave (store : UserStore) (doc : UserRec) :
    Except AppError (UserRec × UserStore) :=
  if (store.find? (fun u => u.email == doc.email)).isSome then
    Except.error (AppError.validation "email must be unique")
  else if doc.username.isSome &&
      (store.find? (fun u => u.username == doc.username)).isSome then
    Except.error (AppError.validation "username must be unique")
  else
    Except.ok (doc, store ++ [doc])

/-- Model of UserCrudService.create (services/user-crud.service.ts):
rejects a duplicate email with a conflict, then a duplicate username
with a conflict, hashes the password when present, and saves the new
document.  Mongoose applies the schema setters of user.schema.ts to
query filter values, so the duplicate checks compare the normalized
filter value (trimmed lowercased email, trimmed username) with the
stored fields, and the save itself still carries the unique validator
failure path. -/
def UserCrudService.create (store : UserStore) (input : CreateUserInput)
    (newId : Nat) : Except AppError (UserRec × UserStore) :=
  match store.find? (fun u => u.email == normEmail input.email) with
  | some _ => Except.error (AppError.conflict "Email already exists")
  | none =>
    if usernameTaken store input.username then
      Except.error (AppError.conflict "Username already exists")
    else
      userSave store (createdDoc input newId)

/-- Model of UserCrudService.findOne: findById, null when absent. -/
def UserCrudService.findOne (store : UserStore) (id : Nat) : Option UserRec :=
  findById store id

/-- Model of UserCrudService.remove: findByIdAndDelete, a hard delete;
returns whether a document was deleted, and the resulting collection. -/
def UserCrudService.remove (store : UserStore) (id : Nat) : Bool × UserStore :=
  let r := deleteById store id
  (r.1.isSome, r.2)

/-- Model of UserService.remove (user.service.ts), which delegates to
UserCrudService.remove; the surrounding cache invalidation does not touch
the users collection. -/
def UserService.remove (store : UserStore) (id : Nat) : Bool × UserStore :=
  UserCrudService.remove store id

/-- Model of UserRepository.remove (repositories/user.repository.ts),
the soft delete variant: updateById setting isActive to false. -/
def UserRepository.remove (store : UserStore) (id : Nat) : Bool × UserStore :=
  let r := findByIdAndUpdate store id deactivateDoc
  (r.1.isSome, r.2)

/-- Model of UserQueryService.findByEmail: the call site lowercases the
argument and mongoose applies the schema setters of user.schema.ts
(trim, lowercase) to the query filter value; the composition equals
normEmail, lowercasing being idempotent and commuting with trim. -/
def UserQueryService.findByEmail (store : UserStore) (email : String) :
    Option UserRec :=
  store.find? (fun u => u.email == normEmail email)

/-- Model of UserQueryService.findByProvider: first document whose
provider and providerId both match. -/
def UserQueryService.findByProvider (store : UserStore) (provider : AuthProvider)
    (providerId : String) : Option UserRec :=
  store.find? (fun u => decide (u.provider = provider ∧ u.providerId = some providerId))

/-- Model of UserQueryService.findByPasswordResetToken: first document
whose stored token matches and whose expiry is strictly in the future
(the mongo gt filter fails on a missing expiry). -/
def UserQueryService.findByPasswordResetToken (store : UserStore) (token : String)
    (now : Nat) : Option UserRec :=
  store.find? (fun u =>
    u.passwordResetToken == some token &&
      (match u.passwordResetExpires with
       | some e => now < e
       | none => false))

/-- Model of UserPasswordService.verifyPassword: argon2.verify, with the
error path collapsed to false. -/
def UserPasswordService.verifyPassword (plain hashed : String) : Bool :=
  argon2verify hashed plain

/-- The per-document effect of UserPasswordService.updatePassword: store
the new hash and clear any pending reset token and expiry. -/
def updatePasswordDoc (newPassword : String) (u : UserRec) : UserRec :=
  { u with passwordHash := some (argon2hash newPassword)
           passwordResetToken := none
           passwordResetExpires := none }

/-- Model of UserPasswordService.updatePassword: hash the new password,
findByIdAndUpdate, and report whether a document was updated. -/
def UserPasswordService.updatePassword (store : UserStore) (userId : Nat)
    (newPassword : String) : Bool × UserStore :=
  let r := findByIdAndUpdate store userId (updatePasswordDoc newPassword)
  (r.1.isSome, r.2)

/-- Model of UserPasswordService.updateLastLogin. -/
def UserPasswordService.updateLastLogin (store : UserStore) (userId : Nat)
    (now : Nat) : UserStore :=
  (findByIdAndUpdate store userId (lastLoginDoc now)).2

/-- Model of UserPasswordService.setPasswordResetToken. -/
def UserPasswordService.setPasswordResetToken (store : UserStore) (userId : Nat)
    (token : String) (expires : Nat) : UserStore :=
  (findByIdAndUpdate store userId (setResetDoc token expires)).2

/-- Model of UserPasswordService.clearPasswordResetToken. -/
def UserPasswordService.clearPasswordResetToken (store : UserStore)
    (userId : Nat) : UserStore :=
  (findByIdAndUpdate store userId clearResetDoc).2

/-- JWT payload shape signed by AuthService.generateTokens. -/
structure JwtPayload where
  sub : Nat
  email : String
  role : UserRole
deriving DecidableEq, Repr

/-- Model of a JWT string: either a token produced by signing with some
secret and carrying an expiry, or a malformed string. -/
inductive Token where
  | signed (secret : String) (payload : JwtPayload) (exp : Nat)
  | malformed (raw : String)
deriving DecidableEq, Repr

/-- Model of jwtService.sign with a secret and an absolute expiry. -/
def jwtSign (secret : String) (payload : JwtPayload) (exp : Nat) : Token :=
  Token.signed secret payload exp

/-- Model of jwtService.verify: succeeds exactly on a token signed with
the expected secret and not yet expired. -/
def jwtVerify (tok : Token) (secret : String) (now : Nat) : Option JwtPayload :=
  match tok with
  | Token.signed s p e => if s == secret && now < e then some p else none
  | Token.malformed _ => none

/-- Decode the embedded payload of a token without checking anything,
modelling jwt.decode on the client side. -/
def Token.decodePayload : Token → Option JwtPayload
  | Token.signed _ p _ => some p
  | Token.malformed _ => none

/-- JWT configuration (configuration.ts): signing secrets and lifetimes
in milliseconds.  The verify call in AuthService.refreshToken resolves
its secret from the same environment variable with the same default, so
a single refreshSecret is faithful. -/
structure JwtConfig where
  secret : String
  expiresIn : Nat
  refreshSecret : String
  refreshExpiresIn : Nat
deriving Repr

/-- Model of AuthService.generateTokens: one payload with sub, email and
role, signed once with the access secret and once with the refresh
secret.  The source writes role as user.role with a USER fallback, and
role is total here because the schema defaults it to USER. -/
def AuthService.generateTokens (cfg : JwtConfig) (u : UserRec) (now : Nat) :
    Token × Token :=
  let payload : JwtPayload := { sub := u.id, email := u.email, role := u.role }
  (jwtSign cfg.secret payload (now + cfg.expiresIn),
   jwtSign cfg.refreshSecret payload (now + cfg.refreshExpiresIn))

/-- The AuthResponse returned by register, login, refresh and oauth. -/
structure AuthResponse where
  user : UserRec
  accessToken : Token
  refreshTok : Token
deriving DecidableEq, Repr

/-- Build the AuthResponse of a user from freshly generated tokens. -/
def mkAuthResponse (cfg : JwtConfig) (u : UserRec) (now : Nat) : AuthResponse :=
  let toks := AuthService.generateTokens cfg u now
  { user := u, accessToken := toks.1, refreshTok := toks.2 }

/-- Login input dto. -/
structure LoginInput where
  email : String
  password : String
deriving Repr

/-- Registration input dto (register.input.ts). -/
structure RegisterInput where
  email : String
  password : String
  username : Option String
  firstName : Option String
  lastName : Option String
deriving Repr

/-- Model of AuthService.register: create the user with provider LOCAL
through the user service; a ConflictException is rethrown as is and any
other failure is wrapped as a conflict, then tokens are issued. -/
def AuthService.register (cfg : JwtConfig) (store : UserStore)
    (input : RegisterInput) (now newId : Nat) :
    Except AppError AuthResponse × UserStore :=
  match UserCrudService.create store
      { email := input.email
        username := input.username
        password := some input.password
        provider := some AuthProvider.LOCAL
        providerId := none
        role := none
        isEmailVerified := none
        firstName := input.firstName
        lastName := input.lastName
        avatar := none } newId with
  | Except.error e =>
    match e with
    | AppError.conflict m => (Except.error (AppError.conflict m), store)
    | _ => (Except.error (AppError.conflict "Registration failed"), store)
  | Except.ok (user, store1) =>
    (Except.ok (mkAuthResponse cfg user now), store1)

/-- Model of AuthService.login: find by email, reject a missing user, a
deactivated account, a non local provider, a missing password hash and a
failed verification, each with an unauthorized error; otherwise record
the login time and answer with fresh tokens for the user as read before
the lastLogin update. -/
def AuthService.login (cfg : JwtConfig) (store : UserStore) (input : LoginInput)
    (now : Nat) : Except AppError AuthResponse × UserStore :=
  match UserQueryService.findByEmail store input.email with
  | none => (Except.error (AppError.unauthorized "Invalid credentials"), store)
  | some user =>
    if user.isActive = false then
      (Except.error (AppError.unauthorized "Account is deactivated"), store)
    else if user.provider ≠ AuthProvider.LOCAL then
      (Except.error (AppError.unauthorized
        (String.append "Please login with " user.provider.lower)), store)
    else
      match user.passwordHash with
      | none =>
        (Except.error (AppError.unauthorized "Password not set for this account"),
         store)
      | some hashed =>
        if UserPasswordService.verifyPassword input.password hashed = false then
          (Except.error (AppError.unauthorized "Invalid credentials"), store)
        else
          (Except.ok (mkAuthResponse cfg user now),
           UserPasswordService.updateLastLogin store user.id now)

/-- Model of AuthService.refreshToken: verify against the refresh secret,
look the subject up, and reject a missing or deactivated user; every
failure, including a verification failure, surfaces as the same
unauthorized error through the surrounding catch. -/
def AuthService.refreshTokenFlow (cfg : JwtConfig) (store : UserStore)
    (tok : Token) (now : Nat) : Except AppError AuthResponse :=
  match jwtVerify tok cfg.refreshSecret now with
  | none => Except.error (AppError.unauthorized "Invalid refresh token")
  | some payload =>
    match findById store payload.sub with
    | none => Except.error (AppError.unauthorized "Invalid refresh token")
    | some user =>
      if user.isActive then Except.ok (mkAuthResponse cfg user now)
      else Except.error (AppError.unauthorized "Invalid refresh token")

/-- OAuth profile as delivered by the passport strategy. -/
structure OAuthProfile where
  id : String
  emails : List String
  givenName : Option String
  familyName : Option String
  photos : List String
deriving Repr

/-- The newUserData object AuthService.oauthLogin builds for a first
OAuth login with email e. -/
def oauthCreateInput (e : String) (profile : OAuthProfile)
    (provider : AuthProvider) : CreateUserInput :=
  { email := e
    username := none
    password := none
    provider := some provider
    providerId := some profile.id
    role := none
    isEmailVerified := some true
    firstName := some (profile.givenName.getD "")
    lastName := some (profile.familyName.getD "")
    avatar := some (profile.photos.head?.getD "") }

/-- Model of AuthService.oauthLogin: look up by provider and providerId;
when absent, fall back to a lookup by the first profile email, rejecting
a profile without an email; when the email is also unknown, create a new
user carrying the provider and providerId; finally record the login time
and answer with fresh tokens. -/
def AuthService.oauthLogin (cfg : JwtConfig) (store : UserStore)
    (profile : OAuthProfile) (provider : AuthProvider) (now newId : Nat) :
    Except AppError AuthResponse × UserStore :=
  match UserQueryService.findByProvider store provider profile.id with
  | some user =>
    (Except.ok (mkAuthResponse cfg user now),
     UserPasswordService.updateLastLogin store user.id now)
  | none =>
    match profile.emails.head? with
    | none =>
      (Except.error (AppError.unauthorized "Email is required for OAuth login"),
       store)
    | some email =>
      match UserQueryService.findByEmail store email with
      | some existing =>
        (Except.ok (mkAuthResponse cfg existing now),
         UserPasswordService.updateLastLogin store existing.id now)
      | none =>
        match UserCrudService.create store
            (oauthCreateInput email profile provider) newId with
        | Except.error e => (Except.error e, store)
        | Except.ok (newUser, store1) =>
          (Except.ok (mkAuthResponse cfg newUser now),
           UserPasswordService.updateLastLogin store1 newUser.id now)

/-- Model of AuthService.changePassword: find the user by id, refetch by
email for the password hash, reject when the hash is missing or the
current password fails verification, otherwise delegate to
updatePassword and return its boolean.  There is no comparison between
the current and the new password. -/
def AuthService.changePassword (store : UserStore) (userId : Nat)
    (currentPassword newPassword : String) :
    Except AppError Bool × UserStore :=
  match findById store userId with
  | none => (Except.error (AppError.unauthorized "User not found"), store)
  | some user =>
    match UserQueryService.findByEmail store user.email with
    | none =>
      (Except.error (AppError.unauthorized "Unable to change password"), store)
    | some withPassword =>
      match withPassword.passwordHash with
      | none =>
        (Except.error (AppError.unauthorized "Unable to change password"), store)
      | some hashed =>
        if UserPasswordService.verifyPassword currentPassword hashed = false then
          (Except.error (AppError.unauthorized "Current password is incorrect"),
           store)
        else
          let r := UserPasswordService.updatePassword store userId newPassword
          (Except.ok r.1, r.2)

/-- Model of AuthService.forgotPassword: always answer true; when the
email belongs to a user, store the generated reset token with a one hour
expiry on that user.  The random token is the explicit resetTok
parameter. -/
def AuthService.forgotPassword (store : UserStore) (email : String)
    (resetTok : String) (now : Nat) : Bool × UserStore :=
  match UserQueryService.findByEmail store email with
  | none => (true, store)
  | some user =>
    (true, UserPasswordService.setPasswordResetToken store user.id resetTok
      (now + 3600000))

/-- Model of AuthService.resetPassword: look the token up together with
its expiry; reject an unknown or expired token with an unauthorized
error, otherwise update the password, clear the reset token and answer
true. -/
def AuthService.resetPassword (store : UserStore) (token : String)
    (newPassword : String) (now : Nat) : Except AppError Bool × UserStore :=
  match UserQueryService.findByPasswordResetToken store token now with
  | none =>
    (Except.error (AppError.unauthorized "Invalid or expired reset token"), store)
  | some user =>
    let r := UserPasswordService.updatePassword store user.id newPassword
    (Except.ok true,
     UserPasswordService.clearPasswordResetToken r.2 user.id)

/-- An exception reaching the global filter: either an HttpException with
its status and message, or anything else. -/
inductive Caught where
  | httpEx (status : Nat) (message : String)
  | other (message : String)
deriving DecidableEq, Repr

/-- The response body assembled by the filter, restricted to the fields
the claims are about; stackIncluded records whether the stack spread was
applied. -/
structure ErrorResponse where
  statusCode : Nat
  message : String
  stackIncluded : Bool
deriving DecidableEq, Repr

/-- Model of AllExceptionsFilter.catch (all-exceptions.filter.ts): an
HttpException keeps its own status and message; any other exception maps
to status 500 with the fixed message, and the stack is attached only when
nodeEnv is development. -/
def AllExceptionsFilter.catchExc (exc : Caught) (nodeEnv : String) :
    ErrorResponse :=
  match exc with
  | Caught.httpEx s m =>
    { statusCode := s, message := m, stackIncluded := nodeEnv == "development" }
  | Caught.other _ =>
    { statusCode := 500, message := "Internal server error",
      stackIncluded := nodeEnv == "development" }

/-- Number of stored users carrying a given provider and providerId,
the quantity the oauth uniqueness claim is about. -/
def countProvider (store : UserStore) (p : AuthProvider) (pid : String) : Nat :=
  (store.filter (fun u => decide (u.provider = p ∧ u.providerId = some pid))).length

/-- The user attached to a request, as far as the roles guard reads it. -/
structure RequestUser where
  role : UserRole
deriving DecidableEq, Repr

/-- The execution context as far as RolesGuard reads it: the roles
metadata (absent when no Roles decorator applies) and the request user. -/
structure GuardContext where
  requiredRoles : Option (List UserRole)
  user : Option RequestUser
deriving Repr

/-- Model of RolesGuard.canActivate (roles.guard.ts): allow when no roles
metadata is declared; otherwise require a request user whose role equals
one of the required roles. -/
def RolesGuard.canActivate (ctx : GuardContext) : Bool :=
  match ctx.requiredRoles with
  | none => true
  | some roles =>
    match ctx.user with
    | none => false
    | some u => roles.any (fun r => decide (u.role = r))

/-- A local demo user with a known password, used by concrete witnesses. -/
def demoUser : UserRec :=
  { id := 1, email := "alice@x.io", username := some "alice",
    passwordHash := some (argon2hash "pw123"), role := UserRole.USER,
    provider := AuthProvider.LOCAL, providerId := none, isActive := true,
    isEmailVerified := true, passwordResetToken := none,
    passwordResetExpires := none, lastLogin := none, firstName := none,
    lastName := none, avatar := none }

/-- A second demo user, holder of a pending password reset token. -/
def demoUser2 : UserRec :=
  { id := 2, email := "bob@x.io", username := some "bob",
    passwordHash := some (argon2hash "oldpw"), role := UserRole.USER,
    provider := AuthProvider.LOCAL, providerId := none, isActive := true,
    isEmailVerified := true, passwordResetToken := some "rtok",
    passwordResetExpires := some 1000, lastLogin := none, firstName := none,
    lastName := none, avatar := none }

/-- Demo store holding the two demo users. -/
def demoStore : UserStore := [demoUser, demoUser2]

/-- Demo JWT configuration. -/
def demoCfg : JwtConfig :=
  { secret := "s1", expiresIn := 900000,
    refreshSecret := "s2", refreshExpiresIn := 604800000 }

/-- Demo OAuth profile carrying a fresh provider id and email. -/
def demoProfile : OAuthProfile :=
  { id := "gid9", emails := ["carol@x.io"], givenName := some "Carol",
    familyName := none, photos := [] }

/-- Demo JWT payload naming user 1. -/
def alicePayload : JwtPayload :=
  { sub := 1, email := "alice@x.io", role := UserRole.USER }

/-- Demo JWT payload naming an id that is not stored. -/
def ghostPayload : JwtPayload :=
  { sub := 9, email := "ghost@x.io", role := UserRole.USER }

/-- Registration input with an unused email but an already taken
username, used by the C3 counterexample. -/
def carolRegInput : RegisterInput :=
  { email := "carol@x.io", password := "pw9", username := some "alice",
    firstName := none, lastName := none }

/-- Registration input whose email differs from the stored email of user
1 only by letter case, used by the C3 counterexample. -/
def aliceCaseRegInput : RegisterInput :=
  { email := "Alice@X.io", password := "pw9", username := none,
    firstName := none, lastName := none }

/-! Helper lemmas about the list level store operations. -/


theorem find?_of_filter_singleton {α : Type} {l : List α} {p : α → Bool} {a : α}
    (h : l.filter p = [a]) : l.find? p = some a := by
  induction l with
  | nil => simp at h
  | cons x rest ih =>
    cases hp : p x with
    | true =>
      simp only [List.filter_cons, hp, if_true] at h
      simp only [List.find?_cons, hp]
      obtain ⟨h1, h2⟩ := List.cons_eq_cons.mp h
      rw [h1]
    | false =>
      simp only [List.filter_cons, hp, Bool.false_eq_true, if_false] at h
      simp only [List.find?_cons, hp]
      exact ih h

theorem filter_nil_of_find?_none {α : Type} {l : List α} {p : α → Bool}
    (h : l.find? p = none) : l.filter p = [] := by
  rw [List.filter_eq_nil_iff]
  intro a ha
  exact fun hpa => (List.find?_eq_none.mp h a ha) hpa

theorem find?_none_of_filter_nil {α : Type} {l : List α} {p : α → Bool}
    (h : l.filter p = []) : l.find? p = none := by
  rw [List.find?_eq_none]
  intro a ha hpa
  have hmem : a ∈ l.filter p := List.mem_filter.mpr ⟨ha, hpa⟩
  rw [h] at hmem
  exact absurd hmem (List.not_mem_nil a)

theorem findById_of_filter_singleton (store : UserStore) (id : Nat)
    (u : UserRec) (h : store.filter (fun v => v.id == id) = [u]) :
    findById store id = some u :=
  find?_of_filter_singleton h

theorem findByIdAndUpdate_fst (store : UserStore) (id : Nat)
    (f : UserRec → UserRec) :
    (findByIdAndUpdate store id f).1 = (findById store id).map f := by
  induction store with
  | nil => rfl
  | cons x rest ih =>
    cases hx : x.id == id with
    | true => simp [findByIdAndUpdate, findById, List.find?_cons, hx]
    | false =>
      simp only [findByIdAndUpdate, hx, Bool.false_eq_true, if_false]
      simp only [findById, List.find?_cons, hx] at ih ⊢
      exact ih

theorem findByIdAndUpdate_length (store : UserStore) (id : Nat)
    (f : UserRec → UserRec) :
    (findByIdAndUpdate store id f).2.length = store.length := by
  induction store with
  | nil => rfl
  | cons x rest ih =>
    cases hx : x.id == id with
    | true => simp [findByIdAndUpdate, hx]
    | false =>
      simp only [findByIdAndUpdate, hx, Bool.false_eq_true, if_false,
        List.length_cons]
      rw [ih]

theorem findByIdAndUpdate_snd_find (store : UserStore) (id : Nat)
    (f : UserRec → UserRec) (hpres : ∀ v, (f v).id = v.id) :
    findById (findByIdAndUpdate store id f).2 id = (findById store id).map f := by
  induction store with
  | nil => rfl
  | cons x rest ih =>
    cases hx : x.id == id with
    | true =>
      have hfx : ((f x).id == id) = true := by rw [hpres x]; exact hx
      simp [findByIdAndUpdate, findById, List.find?_cons, hx, hfx]
    | false =>
      have hfx : ((f x).id == id) = false := by rw [hpres x]; exact hx
      simp only [findByIdAndUpdate, hx, Bool.false_eq_true, if_false]
      simp only [findById, List.find?_cons, hx] at ih ⊢
      exact ih

theorem findByIdAndUpdate_filter_length (store : UserStore) (id : Nat)
    (f : UserRec → UserRec) (q : UserRec → Bool) (hq : ∀ v, q (f v) = q v) :
    ((findByIdAndUpdate store id f).2.filter q).length =
      (store.filter q).length := by
  induction store with
  | nil => rfl
  | cons x rest ih =>
    cases hx : x.id == id with
    | true =>
      simp only [findByIdAndUpdate, hx, if_true]
      cases hqx : q x with
      | true =>
        simp [List.filter_cons, hq x, hqx]
      | false =>
        simp [List.filter_cons, hq x, hqx]
    | false =>
      simp only [findByIdAndUpdate, hx, Bool.false_eq_true, if_false]
      cases hqx : q x with
      | true =>
        simp only [List.filter_cons, hqx, if_true, List.length_cons]
        rw [ih]
      | false =>
        simp only [List.filter_cons, hqx, Bool.false_eq_true, if_false]
        exact ih

theorem deleteById_of_filter_singleton (store : UserStore) (id : Nat)
    (u : UserRec) (hid : store.filter (fun v => v.id == id) = [u]) :
    (deleteById store id).1 = some u ∧
      (deleteById store id).2.filter (fun v => v.id == id) = [] := by
  induction store with
  | nil => simp at hid
  | cons x rest ih =>
    cases hx : x.id == id with
    | true =>
      simp only [List.filter_cons, hx, if_true] at hid
      obtain ⟨h1, h2⟩ := List.cons_eq_cons.mp hid
      subst h1
      simp [deleteById, hx, h2]
    | false =>
      simp only [List.filter_cons, hx, Bool.false_eq_true, if_false] at hid
      have := ih hid
      simp only [deleteById, hx, Bool.false_eq_true, if_false]
      exact ⟨this.1, by
        simp only [List.filter_cons, hx, Bool.false_eq_true, if_false]
        exact this.2⟩

theorem deleteById_filter_other (store : UserStore) (id : Nat) (u : UserRec)
    (q : UserRec → Bool) (hid : store.filter (fun v => v.id == id) = [u])
    (hq : store.filter q = [u]) :
    (deleteById store id).2.filter q = [] := by
  induction store with
  | nil => simp at hid
  | cons x rest ih =>
    cases hx : x.id == id with
    | true =>
      simp only [List.filter_cons, hx, if_true] at hid
      obtain ⟨h1, h2⟩ := List.cons_eq_cons.mp hid
      subst h1
      simp only [deleteById, hx, if_true]
      cases hqx : q x with
      | true =>
        simp only [List.filter_cons, hqx, if_true] at hq
        exact (List.cons_eq_cons.mp hq).2
      | false =>
        simp only [List.filter_cons, hqx, Bool.false_eq_true, if_false] at hq
        have hmem : x ∈ rest.filter q := by
          rw [hq]; exact List.mem_cons_self x []
        have : q x = true := (List.mem_filter.mp hmem).2
        rw [this] at hqx
        cases hqx
    | false =>
      simp only [List.filter_cons, hx, Bool.false_eq_true, if_false] at hid
      have huid : (u.id == id) = true := by
        have hmem : u ∈ rest.filter (fun v => v.id == id) := by
          rw [hid]; exact List.mem_cons_self u []
        exact (List.mem_filter.mp hmem).2
      cases hqx : q x with
      | true =>
        simp only [List.filter_cons, hqx, if_true] at hq
        obtain ⟨h3, h4⟩ := List.cons_eq_cons.mp hq
        subst h3
        rw [hx] at huid
        cases huid
      | false =>
        simp only [List.filter_cons, hqx, Bool.false_eq_true, if_false] at hq
        simp only [deleteById, hx, Bool.false_eq_true, if_false]
        simp only [List.filter_cons, hqx, Bool.false_eq_true, if_false]
        exact ih hid hq

theorem findByIdAndUpdate_filter_other (store : UserStore) (id : Nat)
    (u : UserRec) (f : UserRec → UserRec) (q : UserRec → Bool)
    (hid : store.filter (fun v => v.id == id) = [u])
    (hq : store.filter q = [u]) (hfq : q (f u) = true) :
    (findByIdAndUpdate store id f).2.filter q = [f u] := by
  induction store with
  | nil => simp at hid
  | cons x rest ih =>
    cases hx : x.id == id with
    | true =>
      simp only [List.filter_cons, hx, if_true] at hid
      obtain ⟨h1, h2⟩ := List.cons_eq_cons.mp hid
      subst h1
      simp only [findByIdAndUpdate, hx, if_true]
      cases hqx : q x with
      | true =>
        simp only [List.filter_cons, hqx, if_true] at hq
        obtain ⟨h3, h4⟩ := List.cons_eq_cons.mp hq
        simp only [List.filter_cons, hfq, if_true, h4]
      | false =>
        simp only [List.filter_cons, hqx, Bool.false_eq_true, if_false] at hq
        have hmem : x ∈ rest.filter q := by
          rw [hq]; exact List.mem_cons_self x []
        have : q x = true := (List.mem_filter.mp hmem).2
        rw [this] at hqx
        cases hqx
    | false =>
      simp only [List.filter_cons, hx, Bool.false_eq_true, if_false] at hid
      have huid : (u.id == id) = true := by
        have hmem : u ∈ rest.filter (fun v => v.id == id) := by
          rw [hid]; exact List.mem_cons_self u []
        exact (List.mem_filter.mp hmem).2
      cases hqx : q x with
      | true =>
        simp only [List.filter_cons, hqx, if_true] at hq
        obtain ⟨h3, h4⟩ := List.cons_eq_cons.mp hq
        subst h3
        rw [hx] at huid
        cases huid
      | false =>
        simp only [List.filter_cons, hqx, Bool.false_eq_true, if_false] at hq
        simp only [findByIdAndUpdate, hx, Bool.false_eq_true, if_false]
        simp only [List.filter_cons, hqx, Bool.false_eq_true, if_false]
        exact ih hid hq

theorem countProvider_findByIdAndUpdate (store : UserStore) (id : Nat)
    (f : UserRec → UserRec) (p : AuthProvider) (pid : String)
    (hp : ∀ v, (f v).provider = v.provider)
    (hpid : ∀ v, (f v).providerId = v.providerId) :
    countProvider (findByIdAndUpdate store id f).2 p pid =
      countProvider store p pid := by
  unfold countProvider
  exact findByIdAndUpdate_filter_length store id f _
    (fun v => by rw [hp v, hpid v])

theorem countProvider_append_one (store : UserStore) (nu : UserRec)
    (p : AuthProvider) (pid : String) :
    countProvider (store ++ [nu]) p pid =
      countProvider store p pid +
        (if nu.provider = p ∧ nu.providerId = some pid then 1 else 0) := by
  unfold countProvider
  rw [List.filter_append]
  by_cases h : nu.provider = p ∧ nu.providerId = some pid
  · simp [h]
  · simp [h]

theorem countProvider_zero_of_find?_none (store : UserStore)
    (p : AuthProvider) (pid : String)
    (h : UserQueryService.findByProvider store p pid = none) :
    countProvider store p pid = 0 := by
  unfold countProvider
  rw [filter_nil_of_find?_none h]
  rfl

theorem create_success (store : UserStore) (input : CreateUserInput)
    (newId : Nat)
    (h1 : store.find? (fun u => u.email == normEmail input.email) = none)
    (h2 : usernameTaken store input.username = false) :
    UserCrudService.create store input newId =
      Except.ok (createdDoc input newId, store ++ [createdDoc input newId]) := by
  unfold UserCrudService.create
  rw [h1]
  simp only [h2, Bool.false_eq_true, if_false]
  unfold userSave
  have hemail :
      (store.find? (fun u => u.email == (createdDoc input newId).email)).isSome
        = false := by
    show (store.find? (fun u => u.email == normEmail input.email)).isSome = false
    rw [h1]
    rfl
  simp only [hemail, Bool.false_eq_true, if_false]
  cases hun : input.username with
  | none =>
    have hdn : (createdDoc input newId).username = none := by
      show input.username.map trimString = none
      rw [hun]
      rfl
    simp [hdn]
  | some un =>
    have hus : usernameTaken store (some un) = false := by
      rw [← hun]
      exact h2
    simp only [usernameTaken] at hus
    have hdn : (createdDoc input newId).username = some (trimString un) := by
      show input.username.map trimString = some (trimString un)
      rw [hun]
      rfl
    simp [hdn, hus]

/-! Claim theorems. -/

/-- C1: the claim states that AuthService.changePassword rejects when the
old and the new password are identical.  The implementation contains no
such comparison: with the correct current password equal to the new
password the call succeeds and returns true instead of rejecting, which
this concrete evaluation exhibits (the test suite expects a
BadRequestException here). -/
theorem changePassword_accepts_identical_passwords :
    (AuthService.changePassword demoStore 1 "pw123" "pw123").1 =
      Except.ok true := by
  rfl

/-- C2 counterexample: the wired remove operation (UserService.remove,
delegating to UserCrudService.remove) does not leave the record in
storage with isActive false; on a store holding the two demo users it
deletes the record of user 1 outright, so the claim that the record
remains in storage is false. -/
theorem remove_counterexample :
    (UserService.remove demoStore 1).1 = true
    ∧ (UserService.remove demoStore 1).2 = [demoUser2]
    ∧ findById (UserService.remove demoStore 1).2 1 = none := by
  exact ⟨rfl, rfl, rfl⟩

/-- C2 amended: UserService.remove (via UserCrudService.remove) hard
deletes the record, after which login for the account is rejected with
an unauthorized error because the user is gone, while the separate
UserRepository.remove implements the soft delete, setting isActive to
false and keeping the record, after which login is rejected with an
unauthorized account-deactivated error.  The hypotheses say that u is
the unique record with the given id and the unique record found by the
login email lookup for e. -/
theorem remove_and_deactivate_spec (cfg : JwtConfig) (store : UserStore)
    (id : Nat) (u : UserRec) (e : String)
    (hid : store.filter (fun v => v.id == id) = [u])
    (hmail : store.filter (fun v => v.email == normEmail e) = [u]) :
    (UserService.remove store id).1 = true
    ∧ findById (UserService.remove store id).2 id = none
    ∧ (∀ pw now, (AuthService.login cfg (UserService.remove store id).2
          { email := e, password := pw } now).1 =
        Except.error (AppError.unauthorized "Invalid credentials"))
    ∧ (UserRepository.remove store id).1 = true
    ∧ findById (UserRepository.remove store id).2 id =
        some { u with isActive := false }
    ∧ (∀ pw now, (AuthService.login cfg (UserRepository.remove store id).2
          { email := e, password := pw } now).1 =
        Except.error (AppError.unauthorized "Account is deactivated")) := by
  have hdel := deleteById_of_filter_singleton store id u hid
  have hdelq := deleteById_filter_other store id u
    (fun v => v.email == normEmail e) hid hmail
  have hqu : (fun v => v.email == normEmail e) u = true := by
    have hmem : u ∈ store.filter (fun v => v.email == normEmail e) := by
      rw [hmail]; exact List.mem_cons_self u []
    exact (List.mem_filter.mp hmem).2
  refine ⟨?_, ?_, ?_, ?_, ?_, ?_⟩
  · simp [UserService.remove, UserCrudService.remove, hdel.1]
  · exact find?_none_of_filter_nil hdel.2
  · intro pw now
    have hnone : UserQueryService.findByEmail
        (UserService.remove store id).2 e = none := by
      simp only [UserService.remove, UserCrudService.remove]
      exact find?_none_of_filter_nil hdelq
    simp [AuthService.login, hnone]
  · simp only [UserRepository.remove]
    rw [findByIdAndUpdate_fst, findById_of_filter_singleton store id u hid]
    rfl
  · simp only [UserRepository.remove]
    rw [findByIdAndUpdate_snd_find store id deactivateDoc (fun v => rfl),
      findById_of_filter_singleton store id u hid]
    rfl
  · intro pw now
    have hfu : UserQueryService.findByEmail
        (UserRepository.remove store id).2 e = some { u with isActive := false } := by
      simp only [UserRepository.remove, UserQueryService.findByEmail]
      exact find?_of_filter_singleton
        (findByIdAndUpdate_filter_other store id u deactivateDoc
          (fun v => v.email == normEmail e) hid hmail hqu)
    simp [AuthService.login, hfu]

/-- C2 witness: the amended theorem applied to the demo store, user 1
and the email of user 1. -/
theorem remove_and_deactivate_spec_witness :
    (UserService.remove demoStore 1).1 = true
    ∧ findById (UserService.remove demoStore 1).2 1 = none
    ∧ (∀ pw now, (AuthService.login demoCfg (UserService.remove demoStore 1).2
          { email := "alice@x.io", password := pw } now).1 =
        Except.error (AppError.unauthorized "Invalid credentials"))
    ∧ (UserRepository.remove demoStore 1).1 = true
    ∧ findById (UserRepository.remove demoStore 1).2 1 =
        some { demoUser with isActive := false }
    ∧ (∀ pw now, (AuthService.login demoCfg (UserRepository.remove demoStore 1).2
          { email := "alice@x.io", password := pw } now).1 =
        Except.error (AppError.unauthorized "Account is deactivated")) :=
  remove_and_deactivate_spec demoCfg demoStore 1 demoUser "alice@x.io"
    (by rfl) (by rfl)

/-- C7: AuthService.resetPassword rejects an unknown or expired reset
token with an unauthorized error and leaves the store untouched, and for
a matching unexpired token it answers true and leaves the user with the
new password hash and a cleared reset token and expiry. -/
theorem resetPassword_spec (store : UserStore) (token newPassword : String)
    (now : Nat) :
    (UserQueryService.findByPasswordResetToken store token now = none →
      AuthService.resetPassword store token newPassword now =
        (Except.error (AppError.unauthorized "Invalid or expired reset token"),
         store))
    ∧ (∀ u, UserQueryService.findByPasswordResetToken store token now = some u →
        findById store u.id = some u →
        (AuthService.resetPassword store token newPassword now).1 = Except.ok true
        ∧ findById (AuthService.resetPassword store token newPassword now).2 u.id =
            some { u with passwordHash := some (argon2hash newPassword),
                          passwordResetToken := none,
                          passwordResetExpires := none }) := by
  constructor
  · intro h
    simp [AuthService.resetPassword, h]
  · intro u hu hid
    constructor
    · simp [AuthService.resetPassword, hu]
    · simp only [AuthService.resetPassword, hu,
        UserPasswordService.updatePassword,
        UserPasswordService.clearPasswordResetToken]
      rw [findByIdAndUpdate_snd_find _ u.id clearResetDoc (fun v => rfl),
        findByIdAndUpdate_snd_find store u.id (updatePasswordDoc newPassword)
          (fun v => rfl), hid]
      rfl

/-- C7 witness: the theorem applied at the demo store, once with an
unknown token and once with the stored token of user 2 before its
expiry. -/
theorem resetPassword_spec_witness :
    AuthService.resetPassword demoStore "nope" "fresh1" 500 =
      (Except.error (AppError.unauthorized "Invalid or expired reset token"),
       demoStore)
    ∧ (AuthService.resetPassword demoStore "rtok" "fresh1" 500).1 = Except.ok true
    ∧ findById (AuthService.resetPassword demoStore "rtok" "fresh1" 500).2 2 =
        some { demoUser2 with passwordHash := some (argon2hash "fresh1"),
                              passwordResetToken := none,
                              passwordResetExpires := none } :=
  ⟨(resetPassword_spec demoStore "nope" "fresh1" 500).1 (by rfl),
   ((resetPassword_spec demoStore "rtok" "fresh1" 500).2 demoUser2
      (by rfl) (by rfl)).1,
   ((resetPassword_spec demoStore "rtok" "fresh1" 500).2 demoUser2
      (by rfl) (by rfl)).2⟩

/-- C5: AuthService.refreshToken answers the fixed unauthorized error on
any token the refresh secret does not verify (malformed, tampered or
expired), on a verified token whose subject does not exist and on a
verified token whose subject is deactivated, and it answers a fresh
AuthResponse exactly for a verified token of an existing active user. -/
theorem refreshToken_spec (cfg : JwtConfig) (store : UserStore) (tok : Token)
    (now : Nat) :
    (jwtVerify tok cfg.refreshSecret now = none →
      AuthService.refreshTokenFlow cfg store tok now =
        Except.error (AppError.unauthorized "Invalid refresh token"))
    ∧ (∀ p, jwtVerify tok cfg.refreshSecret now = some p →
        findById store p.sub = none →
        AuthService.refreshTokenFlow cfg store tok now =
          Except.error (AppError.unauthorized "Invalid refresh token"))
    ∧ (∀ p u, jwtVerify tok cfg.refreshSecret now = some p →
        findById store p.sub = some u → u.isActive = false →
        AuthService.refreshTokenFlow cfg store tok now =
          Except.error (AppError.unauthorized "Invalid refresh token"))
    ∧ (∀ p u, jwtVerify tok cfg.refreshSecret now = some p →
        findById store p.sub = some u → u.isActive = true →
        AuthService.refreshTokenFlow cfg store tok now =
          Except.ok (mkAuthResponse cfg u now)) := by
  refine ⟨?_, ?_, ?_, ?_⟩
  · intro h; simp [AuthService.refreshTokenFlow, h]
  · intro p hp hu; simp [AuthService.refreshTokenFlow, hp, hu]
  · intro p u hp hu ha; simp [AuthService.refreshTokenFlow, hp, hu, ha]
  · intro p u hp hu ha; simp [AuthService.refreshTokenFlow, hp, hu, ha]

/-- C5 witness: the theorem applied to a malformed token, a token signed
with the wrong secret, an expired token, a verified token with an
unknown subject, and a verified token of the active demo user. -/
theorem refreshToken_spec_witness :
    AuthService.refreshTokenFlow demoCfg demoStore (Token.malformed "zz") 0 =
      Except.error (AppError.unauthorized "Invalid refresh token")
    ∧ AuthService.refreshTokenFlow demoCfg demoStore
        (Token.signed "wrong" alicePayload 50) 0 =
      Except.error (AppError.unauthorized "Invalid refresh token")
    ∧ AuthService.refreshTokenFlow demoCfg demoStore
        (Token.signed "s2" alicePayload 50) 60 =
      Except.error (AppError.unauthorized "Invalid refresh token")
    ∧ AuthService.refreshTokenFlow demoCfg demoStore
        (Token.signed "s2" ghostPayload 50) 0 =
      Except.error (AppError.unauthorized "Invalid refresh token")
    ∧ AuthService.refreshTokenFlow demoCfg demoStore
        (Token.signed "s2" alicePayload 50) 0 =
      Except.ok (mkAuthResponse demoCfg demoUser 0) :=
  ⟨(refreshToken_spec demoCfg demoStore (Token.malformed "zz") 0).1 (by rfl),
   (refreshToken_spec demoCfg demoStore
      (Token.signed "wrong" alicePayload 50) 0).1 (by rfl),
   (refreshToken_spec demoCfg demoStore
      (Token.signed "s2" alicePayload 50) 60).1 (by rfl),
   (refreshToken_spec demoCfg demoStore
      (Token.signed "s2" ghostPayload 50) 0).2.1 ghostPayload (by rfl) (by rfl),
   (refreshToken_spec demoCfg demoStore
      (Token.signed "s2" alicePayload 50) 0).2.2.2 alicePayload demoUser
     (by rfl) (by rfl) (by rfl)⟩

/-- C8: for a non HttpException the global filter produces statusCode
500 with the fixed message, independent of the original exception
message, in particular in production where no stack is attached, while
an HttpException keeps its own status code and message. -/
theorem allExceptionsFilter_spec :
    (∀ msg : String,
      AllExceptionsFilter.catchExc (Caught.other msg) "production" =
        { statusCode := 500, message := "Internal server error",
          stackIncluded := false })
    ∧ (∀ (s : Nat) (m env : String),
        (AllExceptionsFilter.catchExc (Caught.httpEx s m) env).statusCode = s
        ∧ (AllExceptionsFilter.catchExc (Caught.httpEx s m) env).message = m) := by
  exact ⟨fun msg => rfl, fun s m env => ⟨rfl, rfl⟩⟩

/-- C9: RolesGuard.canActivate allows a request exactly when no roles
metadata is declared or the request carries a user whose role equals one
of the required roles; in every other case, including a user whose role
mismatches all required roles, it denies. -/
theorem rolesGuard_canActivate_iff (ctx : GuardContext) :
    RolesGuard.canActivate ctx = true ↔
      (ctx.requiredRoles = none ∨
        ∃ roles u r, ctx.requiredRoles = some roles ∧ ctx.user = some u ∧
          r ∈ roles ∧ u.role = r) := by
  unfold RolesGuard.canActivate
  cases hr : ctx.requiredRoles with
  | none => simp
  | some roles =>
    cases hu : ctx.user with
    | none => simp
    | some u =>
      simp only [List.any_eq_true, decide_eq_true_eq, Option.some.injEq,
        reduceCtorEq, false_or]
      constructor
      · rintro ⟨r, hrr, hr2⟩
        exact ⟨roles, u, r, rfl, rfl, hrr, hr2⟩
      · rintro ⟨roles2, u2, r, h1, h2, h3, h4⟩
        cases h1
        cases h2
        exact ⟨r, h3, h4⟩

/-- C10: AuthService.forgotPassword answers true whether or not the
email belongs to a stored user, so the boolean result does not reveal
account existence; when no user matches the store is unchanged, and when
a user matches the generated reset token is stored on that user with a
one hour expiry. -/
theorem forgotPassword_spec (store : UserStore) (email resetTok : String)
    (now : Nat) :
    (AuthService.forgotPassword store email resetTok now).1 = true
    ∧ (UserQueryService.findByEmail store email = none →
        (AuthService.forgotPassword store email resetTok now).2 = store)
    ∧ (∀ u, UserQueryService.findByEmail store email = some u →
        findById store u.id = some u →
        findById (AuthService.forgotPassword store email resetTok now).2 u.id =
          some { u with passwordResetToken := some resetTok,
                        passwordResetExpires := some (now + 3600000) }) := by
  refine ⟨?_, ?_, ?_⟩
  · cases h : UserQueryService.findByEmail store email with
    | none => simp [AuthService.forgotPassword, h]
    | some u => simp [AuthService.forgotPassword, h]
  · intro h
    simp [AuthService.forgotPassword, h]
  · intro u hu hid
    simp only [AuthService.forgotPassword, hu,
      UserPasswordService.setPasswordResetToken]
    rw [findByIdAndUpdate_snd_find store u.id (setResetDoc resetTok (now + 3600000))
      (fun v => rfl), hid]
    rfl

/-- C10 witness: the theorem applied to the demo store at an unknown
email and at the email of user 1. -/
theorem forgotPassword_spec_witness :
    (AuthService.forgotPassword demoStore "ghost@x.io" "tk1" 7).1 = true
    ∧ (AuthService.forgotPassword demoStore "ghost@x.io" "tk1" 7).2 = demoStore
    ∧ findById (AuthService.forgotPassword demoStore "alice@x.io" "tk1" 7).2 1 =
        some { demoUser with passwordResetToken := some "tk1",
                             passwordResetExpires := some 3600007 } :=
  ⟨(forgotPassword_spec demoStore "ghost@x.io" "tk1" 7).1,
   (forgotPassword_spec demoStore "ghost@x.io" "tk1" 7).2.1 (by rfl),
   (forgotPassword_spec demoStore "alice@x.io" "tk1" 7).2.2 demoUser
     (by rfl) (by rfl)⟩


/-- C3 counterexample: the claim says a single new user record is
created for every registration input with an unused email.  With the
taken username alice the call fails with a conflict and creates nothing
although the email carol@x.io is unused, and with the case variant
Alice@X.io of the stored alice@x.io, an email not stored verbatim, the
call fails with the email conflict because the schema setters lowercase
and trim the email, so no record with that verbatim email is ever
created either. -/
theorem register_counterexample :
    AuthService.register demoCfg demoStore carolRegInput 0 3 =
      (Except.error (AppError.conflict "Username already exists"), demoStore)
    ∧ AuthService.register demoCfg demoStore aliceCaseRegInput 0 3 =
      (Except.error (AppError.conflict "Email already exists"), demoStore) := by
  exact ⟨rfl, rfl⟩

/-- C3 amended: registering with an email that normalizes, under the
trim and lowercase schema setters, to the stored email of an existing
user fails with a conflict (409) error and leaves the stored records
unchanged; for an email unused after normalization, with a username
that is, when provided, unused after trimming, exactly one new user
record is appended, stored with the normalized email. -/
theorem register_spec (cfg : JwtConfig) (store : UserStore)
    (input : RegisterInput) (now newId : Nat) :
    ((∃ u ∈ store, u.email = normEmail input.email) →
      AuthService.register cfg store input now newId =
        (Except.error (AppError.conflict "Email already exists"), store))
    ∧ (store.find? (fun u => u.email == normEmail input.email) = none →
        usernameTaken store input.username = false →
        ∃ nu, AuthService.register cfg store input now newId =
            (Except.ok (mkAuthResponse cfg nu now), store ++ [nu])
          ∧ nu.email = normEmail input.email
          ∧ nu.passwordHash = some (argon2hash input.password)) := by
  constructor
  · rintro ⟨u, hu, he⟩
    have hne : store.find? (fun v => v.email == normEmail input.email) ≠ none := by
      intro hnone
      have hcontr := List.find?_eq_none.mp hnone u hu
      apply hcontr
      simp [he]
    obtain ⟨w, hw⟩ := Option.ne_none_iff_exists.mp hne
    simp only [AuthService.register, UserCrudService.create]
    rw [← hw]
  · intro h1 h2
    have hcr := create_success store
      { email := input.email
        username := input.username
        password := some input.password
        provider := some AuthProvider.LOCAL
        providerId := none
        role := none
        isEmailVerified := none
        firstName := input.firstName
        lastName := input.lastName
        avatar := none } newId h1 h2
    simp only [AuthService.register, hcr]
    exact ⟨_, rfl, rfl, rfl⟩

/-- C3 witness: the amended theorem applied at the demo store, once with
the stored email of user 1 and once with a fresh email and username. -/
theorem register_spec_witness :
    AuthService.register demoCfg demoStore
        { email := "alice@x.io", password := "pw9", username := none,
          firstName := none, lastName := none } 0 3 =
      (Except.error (AppError.conflict "Email already exists"), demoStore)
    ∧ ∃ nu, AuthService.register demoCfg demoStore
          { email := "carol@x.io", password := "pw9", username := some "carol",
            firstName := none, lastName := none } 0 3 =
          (Except.ok (mkAuthResponse demoCfg nu 0), demoStore ++ [nu])
        ∧ nu.email = normEmail "carol@x.io"
        ∧ nu.passwordHash = some (argon2hash "pw9") :=
  ⟨(register_spec demoCfg demoStore
      { email := "alice@x.io", password := "pw9", username := none,
        firstName := none, lastName := none } 0 3).1
      ⟨demoUser, by simp [demoStore], by decide⟩,
   (register_spec demoCfg demoStore
      { email := "carol@x.io", password := "pw9", username := some "carol",
        firstName := none, lastName := none } 0 3).2 (by rfl) (by rfl)⟩

/-- C6: whenever AuthService.login answers ok, each of the two returned
tokens carries a payload consisting exactly of the id (as sub), email
and role of the returned user, who is the user the email lookup found. -/
theorem login_token_payloads (cfg : JwtConfig) (store : UserStore)
    (input : LoginInput) (now : Nat) (resp : AuthResponse) (store2 : UserStore)
    (h : AuthService.login cfg store input now = (Except.ok resp, store2)) :
    resp.accessToken.decodePayload =
      some { sub := resp.user.id, email := resp.user.email, role := resp.user.role }
    ∧ resp.refreshTok.decodePayload =
      some { sub := resp.user.id, email := resp.user.email, role := resp.user.role }
    ∧ UserQueryService.findByEmail store input.email = some resp.user := by
  unfold AuthService.login at h
  split at h
  · simp at h
  · rename_i user hf
    split at h
    · simp at h
    · split at h
      · simp at h
      · split at h
        · simp at h
        · split at h
          · simp at h
          · have h2 : mkAuthResponse cfg user now = resp := by
              have h1 := congrArg Prod.fst h
              simpa using h1
            subst h2
            exact ⟨rfl, rfl, hf⟩

/-- C6 witness: the theorem applied to a successful login of the demo
user. -/
theorem login_token_payloads_witness :
    (mkAuthResponse demoCfg demoUser 5).accessToken.decodePayload =
      some { sub := (mkAuthResponse demoCfg demoUser 5).user.id,
             email := (mkAuthResponse demoCfg demoUser 5).user.email,
             role := (mkAuthResponse demoCfg demoUser 5).user.role }
    ∧ (mkAuthResponse demoCfg demoUser 5).refreshTok.decodePayload =
      some { sub := (mkAuthResponse demoCfg demoUser 5).user.id,
             email := (mkAuthResponse demoCfg demoUser 5).user.email,
             role := (mkAuthResponse demoCfg demoUser 5).user.role }
    ∧ UserQueryService.findByEmail demoStore "alice@x.io" =
        some (mkAuthResponse demoCfg demoUser 5).user :=
  login_token_payloads demoCfg demoStore
    { email := "alice@x.io", password := "pw123" } 5
    (mkAuthResponse demoCfg demoUser 5)
    (UserPasswordService.updateLastLogin demoStore 1 5) (by rfl)


/-- C4: AuthService.oauthLogin keeps at most one user per (provider,
providerId) pair: the invariant is preserved by every run; when a user
with the pair already exists it is reused, with no record created and
that user returned; and on a first login, when neither the pair nor the
profile email is known, exactly one record carrying the pair is
created. -/
theorem oauthLogin_provider_unique (cfg : JwtConfig) (store : UserStore)
    (profile : OAuthProfile) (provider : AuthProvider) (now newId : Nat)
    (hinv : countProvider store provider profile.id ≤ 1) :
    countProvider (AuthService.oauthLogin cfg store profile provider now newId).2
        provider profile.id ≤ 1
    ∧ (∀ u, UserQueryService.findByProvider store provider profile.id = some u →
        (AuthService.oauthLogin cfg store profile provider now newId).2.length =
          store.length
        ∧ (AuthService.oauthLogin cfg store profile provider now newId).1 =
          Except.ok (mkAuthResponse cfg u now))
    ∧ (∀ e, UserQueryService.findByProvider store provider profile.id = none →
        profile.emails.head? = some e →
        UserQueryService.findByEmail store e = none →
        store.find? (fun v => v.email == e) = none →
        ∃ nu, (AuthService.oauthLogin cfg store profile provider now newId).1 =
            Except.ok (mkAuthResponse cfg nu now)
          ∧ nu.provider = provider ∧ nu.providerId = some profile.id
          ∧ (AuthService.oauthLogin cfg store profile provider now newId).2.length =
            store.length + 1
          ∧ countProvider
              (AuthService.oauthLogin cfg store profile provider now newId).2
              provider profile.id = 1) := by
  cases hfp : UserQueryService.findByProvider store provider profile.id with
  | some u =>
    refine ⟨?_, ?_, ?_⟩
    · simp only [AuthService.oauthLogin, hfp,
        UserPasswordService.updateLastLogin]
      rw [countProvider_findByIdAndUpdate store u.id (lastLoginDoc now)
        provider profile.id (fun v => rfl) (fun v => rfl)]
      exact hinv
    · intro u2 hu2
      injection hu2 with hu2
      subst hu2
      constructor
      · simp only [AuthService.oauthLogin, hfp,
          UserPasswordService.updateLastLogin]
        exact findByIdAndUpdate_length store u.id (lastLoginDoc now)
      · simp only [AuthService.oauthLogin, hfp]
    · intro e h1 h2 h3 h4
      simp at h1
  | none =>
    cases he : profile.emails.head? with
    | none =>
      refine ⟨?_, ?_, ?_⟩
      · simp only [AuthService.oauthLogin, hfp, he]
        exact hinv
      · intro u2 hu2
        simp at hu2
      · intro e h1 h2 h3 h4
        simp at h2
    | some e =>
      cases hq : UserQueryService.findByEmail store e with
      | some existing =>
        refine ⟨?_, ?_, ?_⟩
        · simp only [AuthService.oauthLogin, hfp, he, hq,
            UserPasswordService.updateLastLogin]
          rw [countProvider_findByIdAndUpdate store existing.id
            (lastLoginDoc now) provider profile.id (fun v => rfl) (fun v => rfl)]
          exact hinv
        · intro u2 hu2
          simp at hu2
        · intro e2 h1 h2 h3 h4
          injection h2 with h2
          subst h2
          rw [hq] at h3
          simp at h3
      | none =>
        have hq2 : store.find? (fun u => u.email == normEmail e) = none := hq
        have hcr := create_success store (oauthCreateInput e profile provider)
          newId hq2 rfl
        have hcount0 : countProvider store provider profile.id = 0 :=
          countProvider_zero_of_find?_none store provider profile.id hfp
        refine ⟨?_, ?_, ?_⟩
        · simp only [AuthService.oauthLogin, hfp, he, hq, hcr,
            UserPasswordService.updateLastLogin]
          rw [countProvider_findByIdAndUpdate _ _ (lastLoginDoc now)
            provider profile.id (fun v => rfl) (fun v => rfl)]
          rw [countProvider_append_one, hcount0]
          simp [createdDoc, oauthCreateInput]
        · intro u2 hu2
          simp at hu2
        · intro e2 h1 h2 h3 h4
          injection h2 with h2
          subst h2
          refine ⟨createdDoc (oauthCreateInput e profile provider) newId,
            ?_, rfl, rfl, ?_, ?_⟩
          · simp only [AuthService.oauthLogin, hfp, he, hq, hcr]
          · simp only [AuthService.oauthLogin, hfp, he, hq, hcr,
              UserPasswordService.updateLastLogin]
            rw [findByIdAndUpdate_length]
            simp
          · simp only [AuthService.oauthLogin, hfp, he, hq, hcr,
              UserPasswordService.updateLastLogin]
            rw [countProvider_findByIdAndUpdate _ _ (lastLoginDoc now)
              provider profile.id (fun v => rfl) (fun v => rfl)]
            rw [countProvider_append_one, hcount0]
            simp [createdDoc, oauthCreateInput]

/-- C4 witness: the theorem applied to a first Google login of the demo
profile on the demo store, where neither the provider pair nor the email
is known: the invariant holds afterwards and exactly one new record
carrying the pair exists. -/
theorem oauthLogin_provider_unique_witness :
    countProvider (AuthService.oauthLogin demoCfg demoStore demoProfile
        AuthProvider.GOOGLE 7 3).2 AuthProvider.GOOGLE "gid9" ≤ 1
    ∧ ∃ nu, (AuthService.oauthLogin demoCfg demoStore demoProfile
          AuthProvider.GOOGLE 7 3).1 = Except.ok (mkAuthResponse demoCfg nu 7)
        ∧ nu.provider = AuthProvider.GOOGLE ∧ nu.providerId = some "gid9"
        ∧ (AuthService.oauthLogin demoCfg demoStore demoProfile
            AuthProvider.GOOGLE 7 3).2.length = demoStore.length + 1
        ∧ countProvider (AuthService.oauthLogin demoCfg demoStore demoProfile
            AuthProvider.GOOGLE 7 3).2 AuthProvider.GOOGLE "gid9" = 1 :=
  ⟨(oauthLogin_provider_unique demoCfg demoStore demoProfile
      AuthProvider.GOOGLE 7 3 (by decide)).1,
   (oauthLogin_provider_unique demoCfg demoStore demoProfile
      AuthProvider.GOOGLE 7 3 (by decide)).2.2 "carol@x.io"
     (by rfl) (by rfl) (by rfl) (by rfl)⟩

end NestQS
